import Mathlib

/-!
Verification of the ellipsoid resolver of `pymap3d` (`src/pymap3d/ellipsoid.py`).

The module holds a fixed registry mapping a model identifier to a display
name and the semi-major / semi-minor axes (meters), and `Ellipsoid.__init__`
(here `construct`) looks the identifier up, copies the matched fields and
computes three derived scalars: flattening `(a - b) / a`, third flattening
`(a - b) / (a + b)` and eccentricity `sqrt (2 f - f ** 2)`.

The axes and the two flattenings are embedded as exact rationals (the
source's literals are decimal constants); the eccentricity, the one field
whose formula leaves ℚ, is a real number via `Real.sqrt`.  The failure path
(`raise NotImplementedError(f"{model} model not implemented, ...")`) is
embedded as `Except.error` carrying the same message string.
-/

namespace Pymap3d

/-- One registry entry: display name, semi-major axis `a`, semi-minor axis `b`
(the values of the inner dicts of `models` in `Ellipsoid.__init__`). -/
structure ModelRec where
  name : String
  a : ℚ
  b : ℚ
deriving DecidableEq, Repr

/-- The registry literal of `Ellipsoid.__init__` (ellipsoid.py lines 51-90),
in source order, with the source's exact keys, names and decimal values.
Note the key of the Jupiter entry is spelled `jupyter` in the source. -/
def models : List (String × ModelRec) := [
  ("maupertuis", ⟨"Maupertuis (1738)", 6397300.0, 6363806.283⟩),
  ("plessis", ⟨"Plessis (1817)", 6376523.0, 6355862.9333⟩),
  ("everest1830", ⟨"Everest (1830)", 6377299.365, 6356098.359⟩),
  ("everest1830m", ⟨"Everest 1830 Modified (1967)", 6377304.063, 6356103.039⟩),
  ("everest1967", ⟨"Everest 1830 (1967 Definition)", 6377298.556, 6356097.55⟩),
  ("airy", ⟨"Airy (1830)", 6377563.396, 6356256.909⟩),
  ("bessel", ⟨"Bessel (1841)", 6377397.155, 6356078.963⟩),
  ("clarke1866", ⟨"Clarke (1866)", 6378206.4, 6356583.8⟩),
  ("clarke1878", ⟨"Clarke (1878)", 6378190.0, 6356456.0⟩),
  ("clarke1860", ⟨"Clarke (1880)", 6378249.145, 6356514.87⟩),
  ("helmert", ⟨"Helmert (1906)", 6378200.0, 6356818.17⟩),
  ("hayford", ⟨"Hayford (1910)", 6378388.0, 6356911.946⟩),
  ("international1924", ⟨"International (1924)", 6378388.0, 6356911.946⟩),
  ("krassovsky1940", ⟨"Krassovsky (1940)", 6378245.0, 6356863.019⟩),
  ("wgs66", ⟨"WGS66 (1966)", 6378145.0, 6356759.769⟩),
  ("australian", ⟨"Australian National (1966)", 6378160.0, 6356774.719⟩),
  ("international1967", ⟨"New International (1967)", 6378157.5, 6356772.2⟩),
  ("grs67", ⟨"GRS-67 (1967)", 6378160.0, 6356774.516⟩),
  ("sa1969", ⟨"South American (1969)", 6378160.0, 6356774.719⟩),
  ("wgs72", ⟨"WGS-72 (1972)", 6378135.0, 6356750.52001609⟩),
  ("grs80", ⟨"GRS-80 (1979)", 6378137.0, 6356752.31414036⟩),
  ("wgs84", ⟨"WGS-84 (1984)", 6378137.0, 6356752.31424518⟩),
  ("iers1989", ⟨"IERS (1989)", 6378136.0, 6356751.302⟩),
  ("pz90.11", ⟨"ПЗ-90 (2011)", 6378136.0, 6356751.3618⟩),
  ("iers2003", ⟨"IERS (2003)", 6378136.6, 6356751.9⟩),
  ("gsk2011", ⟨"ГСК (2011)", 6378136.5, 6356751.758⟩),
  ("mercury", ⟨"Mercury", 2440500.0, 2438300.0⟩),
  ("venus", ⟨"Venus", 6051800.0, 6051800.0⟩),
  ("moon", ⟨"Moon", 1738100.0, 1736000.0⟩),
  ("mars", ⟨"Mars", 3396900.0, 3376097.80585952⟩),
  ("jupyter", ⟨"Jupiter", 71492000.0, 66770054.3475922⟩),
  ("io", ⟨"Io", 1829.7, 1815.8⟩),
  ("saturn", ⟨"Saturn", 60268000.0, 54364301.5271271⟩),
  ("uranus", ⟨"Uranus", 25559000.0, 24973000.0⟩),
  ("neptune", ⟨"Neptune", 24764000.0, 24341000.0⟩),
  ("pluto", ⟨"Pluto", 1188000.0, 1188000.0⟩)]

/-- The constructed value: the fields `Ellipsoid.__init__` stores on `self`
(ellipsoid.py lines 97-105). -/
structure Ellipsoid where
  model : String
  name : String
  semimajor_axis : ℚ
  semiminor_axis : ℚ
  flattening : ℚ
  thirdflattening : ℚ
  eccentricity : ℝ

/-- The assignments of ellipsoid.py lines 97-105 for a matched entry:
copy the identifier, display name and axes, then compute the derived
scalars from the stored axes. -/
noncomputable def build (model : String) (r : ModelRec) : Ellipsoid :=
  let f : ℚ := (r.a - r.b) / r.a
  { model := model
    name := r.name
    semimajor_axis := r.a
    semiminor_axis := r.b
    flattening := f
    thirdflattening := (r.a - r.b) / (r.a + r.b)
    eccentricity := Real.sqrt (2 * (f : ℝ) - (f : ℝ) ^ 2) }

/-- The message of the `NotImplementedError` raised on an unknown key
(ellipsoid.py lines 93-95); it carries the offending identifier, which the
spec describes as the `UnsupportedModelError` payload. -/
def notImplementedMsg (model : String) : String :=
  model ++ " model not implemented, let us know and we will add it (or make a pull request)"

/-- `Ellipsoid.__init__(model="wgs84")`: dictionary lookup with exact,
case-sensitive string match; raise on a missing key, else populate the
result (ellipsoid.py lines 41, 92-105). -/
noncomputable def construct (model : String := "wgs84") : Except String Ellipsoid :=
  match models.find? (fun p => p.1 == model) with
  | some p => Except.ok (build model p.2)
  | none => Except.error (notImplementedMsg model)

/-- The registry entry a key resolves to (the `model in models` test and the
`models[model]` accesses share this one dictionary lookup). -/
def lookupModel (model : String) : Option (String × ModelRec) :=
  models.find? (fun p => p.1 == model)

/-- A constructed result's axes, for stating lookup facts without `∃`. -/
noncomputable def axes (model : String) : Option (ℚ × ℚ) :=
  (construct model).toOption.map fun e => (e.semimajor_axis, e.semiminor_axis)

/-- The `wgs84` registry entry. -/
def wgs84Rec : ModelRec := ⟨"WGS-84 (1984)", 6378137.0, 6356752.31424518⟩

/-- The `venus` registry entry. -/
def venusRec : ModelRec := ⟨"Venus", 6051800.0, 6051800.0⟩

/-- The `pluto` registry entry. -/
def plutoRec : ModelRec := ⟨"Pluto", 1188000.0, 1188000.0⟩

/-- The `io` registry entry. -/
def ioRec : ModelRec := ⟨"Io", 1829.7, 1815.8⟩

/-- §3's independent recomputation of the flattening from stored axes. -/
def recomputeFlattening (a b : ℚ) : ℚ := (a - b) / a

/-- §3's independent recomputation of the third flattening from stored axes. -/
def recomputeThirdFlattening (a b : ℚ) : ℚ := (a - b) / (a + b)

/-- §3's independent recomputation of the eccentricity from stored axes. -/
noncomputable def recomputeEccentricity (a b : ℚ) : ℝ :=
  Real.sqrt (2 * (recomputeFlattening a b : ℝ) - (recomputeFlattening a b : ℝ) ^ 2)

/-- A successful construction is exactly a successful registry lookup, and the
result is `build` applied to the matched entry. -/
lemma construct_ok_iff {model : String} {e : Ellipsoid} :
    construct model = Except.ok e ↔
      ∃ p, lookupModel model = some p ∧ e = build model p.2 := by
  unfold construct lookupModel
  cases h : models.find? (fun p => p.1 == model) with
  | none => simp [h]
  | some p => simp [h, eq_comm]

/-- A resolved entry is an entry of the registry list. -/
lemma mem_of_lookup {model : String} {p : String × ModelRec}
    (h : lookupModel model = some p) : p ∈ models :=
  List.mem_of_find?_eq_some h

/-- Every registry entry has positive semi-minor axis bounded by the
semi-major axis. -/
lemma models_axes_pos : ∀ p ∈ models, 0 < p.2.b ∧ p.2.b ≤ p.2.a := by
  simp only [models, List.mem_cons, List.not_mem_nil, or_false, forall_eq_or_imp, forall_eq]
  norm_num

/-- C1: the registry maps `wgs84`, `grs80`, `wgs72`, `mars` and `moon` to the
verbatim axis pairs (6378137.0, 6356752.31424518), (6378137.0, 6356752.31414036),
(6378135.0, 6356750.52001609), (3396900.0, 3376097.80585952) and
(1738100.0, 1736000.0), so `construct` on each identifier succeeds with exactly
those stored axes. -/
theorem registry_five_bodies_verbatim :
    axes "wgs84" = some (6378137.0, 6356752.31424518) ∧
    axes "grs80" = some (6378137.0, 6356752.31414036) ∧
    axes "wgs72" = some (6378135.0, 6356750.52001609) ∧
    axes "mars" = some (3396900.0, 3376097.80585952) ∧
    axes "moon" = some (1738100.0, 1736000.0) :=
  ⟨rfl, rfl, rfl, rfl, rfl⟩

/-- C2: `construct model` fails, with the unsupported-model error carrying the
offending identifier, if and only if `model` is not a key of the registry
(exact, case-sensitive match); it succeeds if and only if the key is present;
and `construct "not-a-real-model"` fails with that error. -/
theorem construct_fails_iff_unknown_key :
    (∀ model : String,
      construct model = Except.error (notImplementedMsg model) ↔ lookupModel model = none) ∧
    (∀ model : String,
      (∃ e, construct model = Except.ok e) ↔ (lookupModel model).isSome = true) ∧
    construct "not-a-real-model" = Except.error (notImplementedMsg "not-a-real-model") := by
  refine ⟨fun model => ?_, fun model => ?_, rfl⟩
  · unfold construct lookupModel
    cases h : models.find? (fun p => p.1 == model) <;> simp [h]
  · unfold construct lookupModel
    cases h : models.find? (fun p => p.1 == model) <;> simp [h]

/-- C3: the registry has no key `jupiter` — the Jupiter entry is keyed
`jupyter` — so `construct "jupiter"` takes the error path while
`construct "jupyter"` would resolve Jupiter's parameters. -/
theorem construct_jupiter_not_registered :
    construct "jupiter" = Except.error (notImplementedMsg "jupiter") ∧
    lookupModel "jupiter" = none ∧
    lookupModel "jupyter" = some ("jupyter", ⟨"Jupiter", 71492000.0, 66770054.3475922⟩) :=
  ⟨rfl, rfl, rfl⟩

/-- C4: every successfully constructed `Ellipsoid` has its derived fields
given by the §3 formulas applied to its stored axes: flattening
`(a - b) / a`, third flattening `(a - b) / (a + b)` and eccentricity
`sqrt (2 f - f ^ 2)`. -/
theorem derived_fields_formulas (model : String) (e : Ellipsoid)
    (h : construct model = Except.ok e) :
    e.flattening = (e.semimajor_axis - e.semiminor_axis) / e.semimajor_axis ∧
    e.thirdflattening =
      (e.semimajor_axis - e.semiminor_axis) / (e.semimajor_axis + e.semiminor_axis) ∧
    e.eccentricity = Real.sqrt (2 * (e.flattening : ℝ) - (e.flattening : ℝ) ^ 2) := by
  obtain ⟨p, hp, he⟩ := construct_ok_iff.mp h
  subst he
  exact ⟨rfl, rfl, rfl⟩

/-- C4 witness: the formulas hold for the `wgs84` construction. -/
theorem derived_fields_formulas_wgs84 :
    (build "wgs84" wgs84Rec).flattening =
      ((build "wgs84" wgs84Rec).semimajor_axis - (build "wgs84" wgs84Rec).semiminor_axis) /
        (build "wgs84" wgs84Rec).semimajor_axis ∧
    (build "wgs84" wgs84Rec).thirdflattening =
      ((build "wgs84" wgs84Rec).semimajor_axis - (build "wgs84" wgs84Rec).semiminor_axis) /
        ((build "wgs84" wgs84Rec).semimajor_axis + (build "wgs84" wgs84Rec).semiminor_axis) ∧
    (build "wgs84" wgs84Rec).eccentricity =
      Real.sqrt (2 * ((build "wgs84" wgs84Rec).flattening : ℝ) -
        ((build "wgs84" wgs84Rec).flattening : ℝ) ^ 2) :=
  derived_fields_formulas "wgs84" (build "wgs84" wgs84Rec) rfl

/-- C5: every successfully constructed `Ellipsoid` satisfies
`semimajor_axis ≥ semiminor_axis > 0`, `0 ≤ flattening < 1` and
`0 ≤ eccentricity < 1`. -/
theorem constructed_invariants (model : String) (e : Ellipsoid)
    (h : construct model = Except.ok e) :
    0 < e.semiminor_axis ∧ e.semiminor_axis ≤ e.semimajor_axis ∧
    0 ≤ e.flattening ∧ e.flattening < 1 ∧
    0 ≤ e.eccentricity ∧ e.eccentricity < 1 := by
  obtain ⟨p, hp, he⟩ := construct_ok_iff.mp h
  obtain ⟨hb, hba⟩ := models_axes_pos p (mem_of_lookup hp)
  subst he
  have ha : (0 : ℚ) < p.2.a := lt_of_lt_of_le hb hba
  have hf0 : (0 : ℚ) ≤ (p.2.a - p.2.b) / p.2.a := div_nonneg (by linarith) ha.le
  have hf1 : (p.2.a - p.2.b) / p.2.a < 1 := (div_lt_one ha).mpr (by linarith)
  refine ⟨hb, hba, hf0, hf1, Real.sqrt_nonneg _, ?_⟩
  set f : ℚ := (p.2.a - p.2.b) / p.2.a with hfdef
  have hx0 : (0 : ℝ) ≤ (f : ℝ) := by exact_mod_cast hf0
  have hx1 : (f : ℝ) < 1 := by exact_mod_cast hf1
  have harg : (0 : ℝ) ≤ 2 * (f : ℝ) - (f : ℝ) ^ 2 := by nlinarith
  show Real.sqrt (2 * (f : ℝ) - (f : ℝ) ^ 2) < 1
  rw [show (1 : ℝ) = Real.sqrt 1 by simp]
  exact Real.sqrt_lt_sqrt harg (by nlinarith)

/-- C5 witness: the invariants hold for the `wgs84` construction. -/
theorem constructed_invariants_wgs84 :
    0 < (build "wgs84" wgs84Rec).semiminor_axis ∧
    (build "wgs84" wgs84Rec).semiminor_axis ≤ (build "wgs84" wgs84Rec).semimajor_axis ∧
    0 ≤ (build "wgs84" wgs84Rec).flattening ∧ (build "wgs84" wgs84Rec).flattening < 1 ∧
    0 ≤ (build "wgs84" wgs84Rec).eccentricity ∧ (build "wgs84" wgs84Rec).eccentricity < 1 :=
  constructed_invariants "wgs84" (build "wgs84" wgs84Rec) rfl

/-- C6: `construct "venus"` and `construct "pluto"` both succeed with equal
semi-major and semi-minor axes (the sphere case), giving flattening 0 and
eccentricity exactly 0. -/
theorem venus_pluto_sphere :
    construct "venus" = Except.ok (build "venus" venusRec) ∧
    construct "pluto" = Except.ok (build "pluto" plutoRec) ∧
    (build "venus" venusRec).semimajor_axis = (build "venus" venusRec).semiminor_axis ∧
    (build "pluto" plutoRec).semimajor_axis = (build "pluto" plutoRec).semiminor_axis ∧
    (build "venus" venusRec).flattening = 0 ∧ (build "venus" venusRec).eccentricity = 0 ∧
    (build "pluto" plutoRec).flattening = 0 ∧ (build "pluto" plutoRec).eccentricity = 0 := by
  have hv : (build "venus" venusRec).flattening = 0 := by
    show ((6051800.0 : ℚ) - 6051800.0) / 6051800.0 = 0
    norm_num
  have hp : (build "pluto" plutoRec).flattening = 0 := by
    show ((1188000.0 : ℚ) - 1188000.0) / 1188000.0 = 0
    norm_num
  refine ⟨rfl, rfl, rfl, rfl, hv, ?_, hp, ?_⟩
  · show Real.sqrt (2 * ((build "venus" venusRec).flattening : ℝ) -
      ((build "venus" venusRec).flattening : ℝ) ^ 2) = 0
    rw [hv]
    norm_num
  · show Real.sqrt (2 * ((build "pluto" plutoRec).flattening : ℝ) -
      ((build "pluto" plutoRec).flattening : ℝ) ^ 2) = 0
    rw [hp]
    norm_num

/-- C7: constructing with the argument omitted uses the default identifier
`wgs84`, so the result equals `construct "wgs84"` (and hence agrees with it
field for field). -/
theorem construct_default_wgs84 :
    (construct : Except String Ellipsoid) = construct "wgs84" := rfl

/-- C8: recomputing the three derived scalars independently from a
constructed `Ellipsoid`'s stored axes, with the §3 formulas, reproduces the
stored derived fields exactly. -/
theorem roundtrip_recompute (model : String) (e : Ellipsoid)
    (h : construct model = Except.ok e) :
    recomputeFlattening e.semimajor_axis e.semiminor_axis = e.flattening ∧
    recomputeThirdFlattening e.semimajor_axis e.semiminor_axis = e.thirdflattening ∧
    recomputeEccentricity e.semimajor_axis e.semiminor_axis = e.eccentricity := by
  obtain ⟨p, hp, he⟩ := construct_ok_iff.mp h
  subst he
  exact ⟨rfl, rfl, rfl⟩

/-- C8 witness: the round trip holds for the `wgs84` construction. -/
theorem roundtrip_recompute_wgs84 :
    recomputeFlattening (build "wgs84" wgs84Rec).semimajor_axis
        (build "wgs84" wgs84Rec).semiminor_axis = (build "wgs84" wgs84Rec).flattening ∧
    recomputeThirdFlattening (build "wgs84" wgs84Rec).semimajor_axis
        (build "wgs84" wgs84Rec).semiminor_axis = (build "wgs84" wgs84Rec).thirdflattening ∧
    recomputeEccentricity (build "wgs84" wgs84Rec).semimajor_axis
        (build "wgs84" wgs84Rec).semiminor_axis = (build "wgs84" wgs84Rec).eccentricity :=
  roundtrip_recompute "wgs84" (build "wgs84" wgs84Rec) rfl

/-- C9: `construct` is deterministic in its identifier: two successful calls
with the same identifier agree on all seven exposed fields. -/
theorem construct_deterministic (model : String) (e₁ e₂ : Ellipsoid)
    (h₁ : construct model = Except.ok e₁) (h₂ : construct model = Except.ok e₂) :
    e₁.model = e₂.model ∧ e₁.name = e₂.name ∧
    e₁.semimajor_axis = e₂.semimajor_axis ∧ e₁.semiminor_axis = e₂.semiminor_axis ∧
    e₁.flattening = e₂.flattening ∧ e₁.thirdflattening = e₂.thirdflattening ∧
    e₁.eccentricity = e₂.eccentricity := by
  have h : e₁ = e₂ := Except.ok.inj (h₁.symm.trans h₂)
  subst h
  exact ⟨rfl, rfl, rfl, rfl, rfl, rfl, rfl⟩

/-- C9 witness: two `wgs84` constructions agree on every field. -/
theorem construct_deterministic_wgs84 :
    (build "wgs84" wgs84Rec).model = (build "wgs84" wgs84Rec).model ∧
    (build "wgs84" wgs84Rec).name = (build "wgs84" wgs84Rec).name ∧
    (build "wgs84" wgs84Rec).semimajor_axis = (build "wgs84" wgs84Rec).semimajor_axis ∧
    (build "wgs84" wgs84Rec).semiminor_axis = (build "wgs84" wgs84Rec).semiminor_axis ∧
    (build "wgs84" wgs84Rec).flattening = (build "wgs84" wgs84Rec).flattening ∧
    (build "wgs84" wgs84Rec).thirdflattening = (build "wgs84" wgs84Rec).thirdflattening ∧
    (build "wgs84" wgs84Rec).eccentricity = (build "wgs84" wgs84Rec).eccentricity :=
  construct_deterministic "wgs84" (build "wgs84" wgs84Rec) (build "wgs84" wgs84Rec) rfl rfl

/-- C10: `construct "io"` succeeds with semi-major axis 1829.7 and semi-minor
axis 1815.8 — Io's published radii in kilometers — while every other registry
entry's meter-valued axes are at least 500 times larger (the actual ratios run
from about 546 for Pluto to about 39000 for Jupiter, roughly three orders of
magnitude). -/
theorem io_axes_kilometers :
    construct "io" = Except.ok (build "io" ioRec) ∧
    (build "io" ioRec).semimajor_axis = 1829.7 ∧
    (build "io" ioRec).semiminor_axis = 1815.8 ∧
    ∀ p ∈ models, p.1 ≠ "io" →
      500 * (1829.7 : ℚ) ≤ p.2.a ∧ 500 * (1815.8 : ℚ) ≤ p.2.b := by
  refine ⟨rfl, rfl, rfl, ?_⟩
  intro p hp hne
  fin_cases hp <;> first
    | exact absurd rfl hne
    | constructor <;> norm_num

end Pymap3d
